import Mathlib

/-
Verification development for the Room Visualizer application (src/app.py).

The Python source is shallowly embedded as executable Lean definitions.
External collaborators (the generative endpoints, PIL, reportlab, the
Python json and base64 libraries) are modelled at their boundary:
endpoint outcomes are explicit oracle inputs of type Except, PIL image
decoding is a concrete toy container format standing in for real image
codecs, and reportlab documents are modelled by the story (flowable
list) the source builds, serialised by a concrete byte writer.
All integer arithmetic is exact; the two Python float divisions inside
PIL's thumbnail computation are modelled over the rationals.
-/

namespace RoomVisualizer

/-! ## JSON values (results of Python json.loads) -/

/-- A parsed JSON value, as produced by Python json.loads.  Objects are
association lists; a later binding for the same key shadows an earlier
one, matching dict construction order in the Python parser. -/
inductive Json where
  | null
  | bool (b : Bool)
  | num (n : Int)
  | str (s : String)
  | arr (elems : List Json)
  | obj (fields : List (String × Json))

/-- Python dict lookup on a parsed object: the last binding for the key
wins (json.loads overwrites earlier duplicates). -/
def jsonGet (fields : List (String × Json)) (key : String) : Option Json :=
  match fields with
  | [] => none
  | (k, v) :: rest =>
    match jsonGet rest key with
    | some w => some w
    | none => if k = key then some v else none

/-- Python dict.get with a default value. -/
def jsonGetD (fields : List (String × Json)) (key : String) (dflt : Json) : Json :=
  (jsonGet fields key).getD dflt

/-- Python truthiness of a parsed JSON value. -/
def jsonTruthy : Json → Bool
  | .null => false
  | .bool b => b
  | .num n => n != 0
  | .str s => s != ""
  | .arr xs => !xs.isEmpty
  | .obj fs => !fs.isEmpty

/-- Python str() applied to a parsed JSON value, as used when a value is
interpolated into an f-string.  Container reprs are abbreviated; the
claims only ever interpolate strings. -/
def jsonToStr : Json → String
  | .null => "None"
  | .bool b => if b then "True" else "False"
  | .num n => toString n
  | .str s => s
  | .arr _ => "[...]"
  | .obj _ => "\x7b...\x7d"

/-! ## Base64 (Python base64.b64encode / b64decode boundary) -/

/-- Character of the standard base64 alphabet for a six-bit value. -/
def sixbitToChar (n : Nat) : Char :=
  if n < 26 then Char.ofNat (65 + n)
  else if n < 52 then Char.ofNat (97 + (n - 26))
  else if n < 62 then Char.ofNat (48 + (n - 52))
  else if n = 62 then '+'
  else '/'

/-- Six-bit value of a standard base64 alphabet character. -/
def charToSixbit (c : Char) : Option Nat :=
  if 'A' ≤ c ∧ c ≤ 'Z' then some (c.toNat - 65)
  else if 'a' ≤ c ∧ c ≤ 'z' then some (c.toNat - 97 + 26)
  else if '0' ≤ c ∧ c ≤ '9' then some (c.toNat - 48 + 52)
  else if c = '+' then some 62
  else if c = '/' then some 63
  else none

/-- Standard base64 encoding of a byte list (bytes are Nats below 256),
producing the character stream with trailing padding. -/
def b64encodeBytes : List Nat → List Char
  | [] => []
  | [a] => [sixbitToChar (a / 4), sixbitToChar (a % 4 * 16), '=', '=']
  | [a, b] => [sixbitToChar (a / 4), sixbitToChar (a % 4 * 16 + b / 16),
               sixbitToChar (b % 16 * 4), '=']
  | a :: b :: c :: rest =>
      sixbitToChar (a / 4) :: sixbitToChar (a % 4 * 16 + b / 16) ::
      sixbitToChar (b % 16 * 4 + c / 64) :: sixbitToChar (c % 64) ::
      b64encodeBytes rest

/-- Standard base64 decoding of a character stream, failing on input
that is not a well-padded base64 string (Python base64.b64decode raises
binascii.Error on such input). -/
def b64decodeChars : List Char → Except String (List Nat)
  | [] => .ok []
  | c0 :: c1 :: c2 :: c3 :: rest =>
    match charToSixbit c0, charToSixbit c1 with
    | some s0, some s1 =>
      if c2 = '=' then
        if c3 = '=' ∧ rest = [] then .ok [s0 * 4 + s1 / 16]
        else .error "Invalid base64-encoded string"
      else
        match charToSixbit c2 with
        | some s2 =>
          if c3 = '=' then
            if rest = [] then .ok [s0 * 4 + s1 / 16, s1 % 16 * 16 + s2 / 4]
            else .error "Invalid base64-encoded string"
          else
            match charToSixbit c3 with
            | some s3 =>
              match b64decodeChars rest with
              | .ok bs =>
                  .ok ((s0 * 4 + s1 / 16) :: (s1 % 16 * 16 + s2 / 4) ::
                       (s2 % 4 * 64 + s3) :: bs)
              | .error e => .error e
            | none => .error "Invalid base64 character"
        | none => .error "Invalid base64 character"
    | _, _ => .error "Invalid base64 character"
  | _ => .error "Incorrect padding"

/-- base64.b64encode of a byte list, as a string. -/
def base64Encode (bs : List Nat) : String :=
  String.mk (b64encodeBytes bs)

/-- base64.b64decode of a string, as bytes or a decoding error. -/
def base64Decode (s : String) : Except String (List Nat) :=
  b64decodeChars s.data

/-! ## Images (PIL boundary) -/

/-- A PIL raster image: colour mode, pixel dimensions, and the pixel
payload.  The payload is carried opaquely; the claims constrain modes
and dimensions, never individual pixel values. -/
structure PImage where
  mode : String
  width : Nat
  height : Nat
  data : List Nat

/-- Mode string for the toy container format's mode tag. -/
def modeName (m : Nat) : String :=
  if m = 0 then "RGB" else if m = 1 then "RGBA" else if m = 2 then "L" else "P"

/-- Modelled boundary of PIL Image.open on a byte payload: a toy
container format (mode tag, width, height, then width*height*3 payload
bytes) standing in for real image decoding; it succeeds exactly on
well-formed payloads and raises (here: returns an error) otherwise. -/
def imageOpen (bs : List Nat) : Except String PImage :=
  match bs with
  | m :: w :: h :: rest =>
    if 1 ≤ w ∧ 1 ≤ h ∧ rest.length = w * h * 3 then
      .ok ⟨modeName m, w, h, rest⟩
    else .error "cannot identify image file"
  | _ => .error "cannot identify image file"

/-- Modelled boundary of PIL convert to RGB: the pixel payload is
reinterpreted by the library (carried through here); mode and
dimensions are what the source observes. -/
def pil_convert_rgb (img : PImage) : PImage :=
  { img with mode := "RGB" }

/-- Modelled boundary of PIL LANCZOS resampling: a deterministic
function of the target dimensions and source payload. -/
def pil_resample (w h : Nat) (data : List Nat) : List Nat :=
  w :: h :: data

/-- PIL round_aspect helper from Image.thumbnail: pick whichever of
floor and ceiling minimises the key (Python min returns the first
argument on ties), then clamp below by 1. -/
def round_aspect (number : ℚ) (key : ℕ → ℚ) : ℕ :=
  let fl := (⌊number⌋).toNat
  let ce := (⌈number⌉).toNat
  max (if key fl ≤ key ce then fl else ce) 1

/-- PIL Image.thumbnail size computation for a w×h image and an x×y
bound: unchanged when the image already fits, otherwise one dimension
is pinned to the bound and the other is the aspect-preserving value
rounded to a neighbouring integer.  Python's float divisions are
modelled exactly over ℚ. -/
def pil_thumbnail_size (w h x y : ℕ) : ℕ × ℕ :=
  if w ≤ x ∧ h ≤ y then (w, h)
  else
    let aspect : ℚ := (w : ℚ) / (h : ℚ)
    if aspect ≤ (x : ℚ) / (y : ℚ) then
      (round_aspect ((y : ℚ) * aspect) (fun n => |aspect - (n : ℚ) / (y : ℚ)|), y)
    else
      (x, round_aspect ((x : ℚ) / aspect)
            (fun n => if n = 0 then 0 else |aspect - (x : ℚ) / (n : ℚ)|))

/-- PIL Image.thumbnail against the 800×800 bound: resize in place only
when the computed size differs from the current size. -/
def pil_thumbnail (img : PImage) : PImage :=
  let sz := pil_thumbnail_size img.width img.height 800 800
  if sz = (img.width, img.height) then img
  else { img with width := sz.1, height := sz.2,
                  data := pil_resample sz.1 sz.2 img.data }

/-- compress_image from src/app.py: copy, convert to RGB when needed,
then thumbnail into the default 800×800 bound (every call site uses the
default max_size). -/
def compress_image (image : PImage) : PImage :=
  pil_thumbnail (if image.mode ≠ "RGB" then pil_convert_rgb image else image)

/-! ## Endpoint response model (google.genai boundary) -/

/-- Inline payload of a response part: the data attribute arrives either
as raw binary (Python bytes) or as text-encoded binary (Python str). -/
inductive BlobData where
  | raw (data : List Nat)
  | txt (s : String)

/-- One content part of a generation response; inline_data is absent on
text-only parts. -/
structure ResponsePart where
  inline_data : Option BlobData

/-- A generation response: candidates, each reduced to the parts of its
content (the source reads only candidates[0].content.parts). -/
structure ImgResponse where
  candidates : List (List ResponsePart)

/-- Line 157 of src/app.py: use the payload as-is when it already is
raw binary, otherwise base64-decode the text-encoded payload. -/
def decodeInlineData : BlobData → Except String (List Nat)
  | .raw bs => .ok bs
  | .txt s => base64Decode s

/-- The full instruction string generate_renovation sends to the image
endpoint (its text only parameterises the external call). -/
def renovation_full_prompt (prompt_text : String) : String :=
  "Act as an architectural visualizer. Task: Edit the attached image based on this request: \"" ++
  prompt_text ++
  "\" CRITICAL CONSTRAINTS (DO NOT BREAK): 1. ZERO GEOMETRY CHANGES ... 2. TARGETED IN-PAINTING ... 3. PHOTOREALISM ..."

/-- generate_renovation from src/app.py.  The external call's outcome is
the oracle resp (error = the call raised; the try/except turns any
raised exception, including decoding failures, into (None, str(e))).
The first part carrying inline data is decoded by decodeInlineData and
opened with PIL; success returns (image, None), everything else returns
(None, message). -/
def generate_renovation (input_image : PImage) (prompt_text : String)
    (resp : Except String ImgResponse) : Option PImage × Option String :=
  match resp with
  | .error e => (none, some e)
  | .ok r =>
    match r.candidates with
    | [] => (none, some "No visual data returned.")
    | parts :: _ =>
      match parts.findSome? (fun p => p.inline_data) with
      | none => (none, some "No visual data returned.")
      | some d =>
        match decodeInlineData d with
        | .error e => (none, some e)
        | .ok bs =>
          match imageOpen bs with
          | .error e => (none, some e)
          | .ok img => (some img, none)

/-- generate_design_content from src/app.py.  The oracle resp is the
parsed JSON of the text endpoint's reply; error covers both a raised
call and unparseable text (the bare except catches either, as it also
catches .get on a non-dict value).  Success reads the summary and
rationale fields with empty-string defaults; failure returns the
templated fallback pair. -/
def generate_design_content (room category desc : String)
    (resp : Except Unit Json) : Json × Json :=
  match resp with
  | .ok (Json.obj fields) =>
      (jsonGetD fields "summary" (Json.str ""),
       jsonGetD fields "rationale" (Json.str ""))
  | _ =>
      (Json.str ("Renovation of " ++ room ++ " updating " ++ category ++ "."),
       Json.str "This design modernizes the space while respecting original proportions.")

/-- generate_shopping_list from src/app.py.  The oracle resp is the
parsed JSON of the text endpoint's reply; error covers a raised call or
unparseable text.  A successful parse is returned unvalidated; any
failure degrades to the empty list. -/
def generate_shopping_list (result_image : PImage) (user_request : String)
    (resp : Except Unit Json) : Json :=
  match resp with
  | .ok j => j
  | .error _ => Json.arr []

/-! ## PDF engine (reportlab boundary) -/

/-- A table cell flowable: a styled paragraph or an embedded image with
its byte payload and display size. -/
inductive Cell where
  | cpara (text style : String)
  | cimage (byts : List Nat) (w h : Nat)

/-- A story flowable: styled paragraph, spacer, or a table of cells
(rows of cells with column widths; the source's TableStyle commands are
presentation-only and not modelled). -/
inductive Flowable where
  | para (text style : String)
  | spacer (w h : Nat)
  | table (rows : List (List Cell)) (colWidths : List Nat)

/-- Modelled boundary of img.save(b, format='JPEG', quality=85): a
deterministic byte serialisation of the image. -/
def jpeg_save (img : PImage) : List Nat :=
  255 :: 216 :: img.width :: img.height :: img.data

/-- prep from create_pdf_report: JPEG-encode the image and wrap it as a
250×200 flowable. -/
def prep (img : PImage) : Cell :=
  Cell.cimage (jpeg_save img) 250 200

/-- The shopping link markup built for one material entry (spaces in
the query are replaced by the URL-safe plus separator and substituted
into the fixed search-engine template). -/
def material_link_html (itemStr query : String) : String :=
  "<bullet>&bull;</bullet> <b>" ++ itemStr ++
  "</b>: <a href=\"https://www.google.com/search?q=" ++
  (query.replace " " "+") ++
  "&tbm=shop\" color=\"blue\">Find similar styles online</a>"

/-- Modelled boundary of reportlab Paragraph construction: the text
argument must be a string; any other value raises during the library's
text cleanup, modelled as an error. -/
def asParagraphText : Json → Except String String
  | .str s => .ok s
  | _ => .error "TypeError: Paragraph text must be a string"

/-- Evaluation of one shopping-list entry inside create_pdf_report:
item['query'] must exist and support .replace (be a string), then
item["item"] must exist (any value, stringified by the f-string); any
other shape raises, modelled as an error. -/
def shoppingEntry : Json → Except String (String × String)
  | .obj fs =>
    match jsonGet fs "query" with
    | some (.str q) =>
      match jsonGet fs "item" with
      | some v => .ok (jsonToStr v, q)
      | none => .error "KeyError: item"
    | some _ => .error "AttributeError: replace"
    | none => .error "KeyError: query"
  | _ => .error "TypeError: list item is not a dict"

/-- Left-to-right evaluation of the shopping entries, stopping at the
first raising entry. -/
def shoppingItemsList : List Json → Except String (List (String × String))
  | [] => .ok []
  | j :: rest =>
    match shoppingEntry j with
    | .error e => .error e
    | .ok e =>
      match shoppingItemsList rest with
      | .error e2 => .error e2
      | .ok es => .ok (e :: es)

/-- Iterating the shopping-list value: a JSON array yields its entries;
iterating any other truthy value raises when an element is subscripted
with 'query' (dict iteration yields string keys, string iteration
yields characters, other values are not iterable). -/
def shoppingItems : Json → Except String (List (String × String))
  | .arr xs => shoppingItemsList xs
  | .obj _ => .error "TypeError: string indices must be integers"
  | .str _ => .error "TypeError: string indices must be integers"
  | _ => .error "TypeError: object is not iterable"

/-- The material section of the story: skipped when the shopping list
is falsy, otherwise a section header plus one link paragraph per
entry. -/
def shoppingSection (shopping_list : Json) : Except String (List Flowable) :=
  if jsonTruthy shopping_list then
    match shoppingItems shopping_list with
    | .error e => .error e
    | .ok items =>
        .ok (Flowable.para "Material Palette & Specifications" "SectionHeader" ::
             items.map (fun it => Flowable.para (material_link_html it.1 it.2) "BodyText"))
  else .ok []

/-- The static next-steps boilerplate after its newline replacement. -/
def next_steps_html : String :=
  ("\n    1. <b>Verify Measurements:</b> Confirm site dimensions before ordering materials.\n    2. <b>Sample Approval:</b> Order physical samples of the materials listed above.\n    3. <b>Contractor Review:</b> Share this visual with your contractor for labor estimates.\n    ").replace "\n" "<br/>"

/-- The story create_pdf_report builds, in source order: header and
summary paragraph, the side-by-side before/after table, the rationale
section, the conditional material section, and the next-steps
boilerplate.  Paragraph construction on a non-string value raises, as
does a malformed shopping entry; both are modelled as errors in source
evaluation order. -/
def report_story (before_img after_img : PImage)
    (summary_text rationale_text shopping_list : Json) :
    Except String (List Flowable) :=
  match asParagraphText summary_text with
  | .error e => .error e
  | .ok summ =>
    match asParagraphText rationale_text with
    | .error e => .error e
    | .ok rat =>
      match shoppingSection shopping_list with
      | .error e => .error e
      | .ok shopFlows =>
        .ok ([Flowable.para "Renovation Proposal" "BrandTitle",
              Flowable.spacer 1 10,
              Flowable.para summ "BodyText",
              Flowable.spacer 1 20,
              Flowable.table
                [[prep before_img, prep after_img],
                 [Cell.cpara "<b>Original Site</b>" "BodyText",
                  Cell.cpara "<b>Proposed Design</b>" "BodyText"]]
                [270, 270],
              Flowable.spacer 1 25,
              Flowable.para "Design Concept" "SectionHeader",
              Flowable.para rat "BodyText",
              Flowable.spacer 1 15] ++
             shopFlows ++
             [Flowable.spacer 1 20,
              Flowable.para "Next Steps" "SectionHeader",
              Flowable.para next_steps_html "BodyText"])

/-- Byte serialisation of a cell (doc.build boundary). -/
def cellBytes : Cell → List Nat
  | .cpara t s => 0 :: (t.data.map Char.toNat ++ s.data.map Char.toNat)
  | .cimage bs w h => 1 :: w :: h :: bs

/-- Byte serialisation of a flowable (doc.build boundary). -/
def flowableBytes : Flowable → List Nat
  | .para t s => 2 :: (t.data.map Char.toNat ++ s.data.map Char.toNat)
  | .spacer w h => 3 :: w :: h :: []
  | .table rows cws =>
      4 :: cws ++ (rows.map (fun row => (row.map cellBytes).flatten)).flatten

/-- Modelled boundary of reportlab doc.build: a deterministic byte
rendering of the story. -/
def docBuild (story : List Flowable) : List Nat :=
  (story.map flowableBytes).flatten

/-- create_pdf_report from src/app.py: build the story, render it, and
return the base64 of the rendered bytes; an exception raised while
building (non-string paragraph text, malformed shopping entry)
propagates to the caller as an error. -/
def create_pdf_report (before_img after_img : PImage)
    (summary_text rationale_text shopping_list : Json) :
    Except String String :=
  match report_story before_img after_img summary_text rationale_text shopping_list with
  | .error e => .error e
  | .ok story => .ok (base64Encode (docBuild story))

/-- Image payloads embedded in a cell. -/
def cellImages : Cell → List (List Nat)
  | .cimage bs _ _ => [bs]
  | _ => []

/-- Image payloads embedded in a flowable. -/
def flowImages : Flowable → List (List Nat)
  | .table rows _ => (rows.map (fun row => (row.map cellImages).flatten)).flatten
  | _ => []

/-- All image payloads embedded in a story, in order. -/
def storyImages (story : List Flowable) : List (List Nat) :=
  (story.map flowImages).flatten

/-- Paragraph texts of a cell. -/
def cellTexts : Cell → List String
  | .cpara t _ => [t]
  | _ => []

/-- Paragraph texts of a flowable. -/
def flowTexts : Flowable → List String
  | .para t _ => [t]
  | .table rows _ => (rows.map (fun row => (row.map cellTexts).flatten)).flatten
  | _ => []

/-- All paragraph texts of a story, in order. -/
def storyTexts (story : List Flowable) : List String :=
  (story.map flowTexts).flatten

/-! ## Session state and the module-level handlers -/

/-- st.session_state fields initialised in section 2 of src/app.py. -/
structure AppState where
  current_view : String
  input_img : Option PImage
  result_img : Option PImage
  summary : Json
  rationale : Json
  shop_list : Json
  pdf_b64 : Option String

/-- The initial session state (lines 72–78 of src/app.py). -/
def initState : AppState :=
  { current_view := "input", input_img := none, result_img := none,
    summary := Json.str "", rationale := Json.str "",
    shop_list := Json.arr [], pdf_b64 := none }

/-- reset_app from src/app.py: it rewrites exactly the view, the two
images and the report; summary, rationale and shop_list are not
touched. -/
def reset_app (s : AppState) : AppState :=
  { s with current_view := "input", input_img := none,
           result_img := none, pdf_b64 := none }

/-- handle_upload / handle_camera: a new capture is compressed and
becomes the current input image; without a capture nothing changes. -/
def handle_upload (s : AppState) (uploaded : Option PImage) : AppState :=
  match uploaded with
  | some img => { s with input_img := some (compress_image img) }
  | none => s

/-- Outcomes of the external calls one press of the Generate button can
issue, in call order: the image call (error = the endpoint raised), the
design-content call and the shopping-list call (parsed JSON; error =
the call raised or its text was unparseable). -/
structure GenCalls where
  image_call : Except String ImgResponse
  design_call : Except Unit Json
  shopping_call : Except Unit Json

/-- How one handler run ended: success reached st.rerun, failed means
the image call produced no image (its message is shown when truthy),
crashed means an uncaught exception escaped the handler. -/
inductive StepOutcome where
  | success
  | failed (err : Option String)
  | crashed (msg : String)

/-- Result of running one module-level handler: the session state it
leaves behind, the image it passed to the image endpoint (none when no
call was made), and how it ended. -/
structure StepResult where
  state : AppState
  sentImage : Option PImage
  outcome : StepOutcome

/-- The prompt assembled by the Generate Proposal handler. -/
def generate_prompt (r c d : String) : String :=
  "Renovate " ++ r ++ ". Update " ++ c ++ ". Details: " ++ d

/-- The Generate Proposal button handler (lines 275–303 of src/app.py),
with room/category/description read from the widgets and the external
calls' outcomes given by the oracle.  On an image result the state
fields are written in source order (result image, summary, rationale,
shopping list, then the report and the view); a raise inside
create_pdf_report therefore leaves the first four writes behind.  The
handler only exists when an input image is present (the button is
rendered inside `if st.session_state.input_img`). -/
def generate_step (s : AppState) (r c d : String) (o : GenCalls) : StepResult :=
  match s.input_img with
  | none => ⟨s, none, .failed none⟩
  | some i =>
    match generate_renovation i (generate_prompt r c d) o.image_call with
    | (some res, _) =>
      let sr := generate_design_content r c d o.design_call
      let shop := generate_shopping_list res d o.shopping_call
      let s1 := { s with result_img := some res, summary := sr.1,
                         rationale := sr.2, shop_list := shop }
      match create_pdf_report i res sr.1 sr.2 shop with
      | .ok pdf =>
          ⟨{ s1 with pdf_b64 := some pdf, current_view := "result" },
           some i, .success⟩
      | .error e => ⟨s1, some i, .crashed e⟩
    | (none, err) => ⟨s, some i, .failed err⟩

/-- The chat refine handler (lines 335–349 of src/app.py): the image
sent to the endpoint is the current result image; on success the result
image is replaced first, then the report is rebuilt from the original
input image, the new result and the stored texts.  A failing call
leaves the state untouched; a raise inside create_pdf_report leaves the
already-replaced result image behind. -/
def refine_step (s : AppState) (chat : String)
    (resp : Except String ImgResponse) : StepResult :=
  match s.result_img with
  | none => ⟨s, none, .failed none⟩
  | some cur =>
    match generate_renovation cur chat resp with
    | (some new_res, _) =>
      let s1 := { s with result_img := some new_res }
      match s.input_img with
      | none => ⟨s1, some cur, .crashed "AttributeError: NoneType"⟩
      | some before =>
        match create_pdf_report before new_res s.summary s.rationale s.shop_list with
        | .ok pdf => ⟨{ s1 with pdf_b64 := some pdf }, some cur, .success⟩
        | .error e => ⟨s1, some cur, .crashed e⟩
    | (none, err) => ⟨s, some cur, .failed err⟩

/-! ## Lemmas: base64 -/

theorem charToSixbit_sixbitToChar : ∀ n : Nat, n < 64 → charToSixbit (sixbitToChar n) = some n := by
  decide

theorem sixbitToChar_ne_pad : ∀ n : Nat, n < 64 → sixbitToChar n ≠ '=' := by
  decide

theorem b64_roundtrip :
    ∀ bs : List Nat, (∀ b ∈ bs, b < 256) →
      b64decodeChars (b64encodeBytes bs) = Except.ok bs
  | [], _ => rfl
  | [a], h => by
    have ha : a < 256 := h a (by simp)
    have e0 := charToSixbit_sixbitToChar (a / 4) (by omega)
    have e1 := charToSixbit_sixbitToChar (a % 4 * 16) (by omega)
    simp only [b64encodeBytes, b64decodeChars, e0, e1]
    simp only [if_pos rfl, and_self, if_true, reduceIte]
    congr 1
    simp only [List.cons.injEq, and_true]
    omega
  | [a, b], h => by
    have ha : a < 256 := h a (by simp)
    have hb : b < 256 := h b (by simp)
    have e0 := charToSixbit_sixbitToChar (a / 4) (by omega)
    have e1 := charToSixbit_sixbitToChar (a % 4 * 16 + b / 16) (by omega)
    have e2 := charToSixbit_sixbitToChar (b % 16 * 4) (by omega)
    have n2 := sixbitToChar_ne_pad (b % 16 * 4) (by omega)
    simp only [b64encodeBytes, b64decodeChars, e0, e1, e2, n2, if_false, reduceIte]
    congr 1
    simp only [List.cons.injEq, and_true]
    omega
  | a :: b :: c :: rest, h => by
    have ha : a < 256 := h a (by simp)
    have hb : b < 256 := h b (by simp)
    have hc : c < 256 := h c (by simp)
    have ih := b64_roundtrip rest (fun x hx => h x (by simp; tauto))
    have e0 := charToSixbit_sixbitToChar (a / 4) (by omega)
    have e1 := charToSixbit_sixbitToChar (a % 4 * 16 + b / 16) (by omega)
    have e2 := charToSixbit_sixbitToChar (b % 16 * 4 + c / 64) (by omega)
    have e3 := charToSixbit_sixbitToChar (c % 64) (by omega)
    have n2 := sixbitToChar_ne_pad (b % 16 * 4 + c / 64) (by omega)
    have n3 := sixbitToChar_ne_pad (c % 64) (by omega)
    simp only [b64encodeBytes, b64decodeChars, e0, e1, e2, e3, n2, n3, if_false, reduceIte, ih]
    congr 1
    simp only [List.cons.injEq, and_true]
    omega

theorem base64_encode_decode (bs : List Nat) (h : ∀ b ∈ bs, b < 256) :
    base64Decode (base64Encode bs) = Except.ok bs := by
  unfold base64Decode base64Encode
  rw [show (String.mk (b64encodeBytes bs)).data = b64encodeBytes bs from rfl]
  exact b64_roundtrip bs h

/-! ## Lemmas: generate_renovation outcomes -/

theorem generate_renovation_shape (i : PImage) (pt : String)
    (resp : Except String ImgResponse) :
    (∃ a bs, generate_renovation i pt resp = (some a, none) ∧ imageOpen bs = Except.ok a) ∨
    (∃ e, generate_renovation i pt resp = (none, some e)) := by
  rcases resp with e | r
  · exact Or.inr ⟨e, rfl⟩
  · rcases hc : r.candidates with _ | ⟨parts, restc⟩
    · exact Or.inr ⟨"No visual data returned.", by simp [generate_renovation, hc]⟩
    · rcases hf : parts.findSome? (fun p => p.inline_data) with _ | d
      · exact Or.inr ⟨"No visual data returned.", by simp [generate_renovation, hc, hf]⟩
      · rcases hd : decodeInlineData d with e | bs
        · exact Or.inr ⟨e, by simp [generate_renovation, hc, hf, hd]⟩
        · rcases ho : imageOpen bs with e | img
          · exact Or.inr ⟨e, by simp [generate_renovation, hc, hf, hd, ho]⟩
          · exact Or.inl ⟨img, bs, by simp [generate_renovation, hc, hf, hd, ho], ho⟩

/-! ## Lemmas: thumbnail geometry -/

theorem round_aspect_near (q : ℚ) (hq : 0 < q) (key : ℕ → ℚ) :
    |((round_aspect q key : ℕ) : ℚ) - q| < 1 := by
  unfold round_aspect
  have hfl0 : (0 : ℤ) ≤ ⌊q⌋ := Int.floor_nonneg.mpr hq.le
  have hce1 : (1 : ℤ) ≤ ⌈q⌉ := Int.ceil_pos.mpr hq
  have hflc : ((⌊q⌋.toNat : ℕ) : ℚ) = ((⌊q⌋ : ℤ) : ℚ) := by
    rw [← Int.cast_natCast]
    exact congrArg _ (Int.toNat_of_nonneg hfl0)
  have hcec : ((⌈q⌉.toNat : ℕ) : ℚ) = ((⌈q⌉ : ℤ) : ℚ) := by
    rw [← Int.cast_natCast]
    exact congrArg _ (Int.toNat_of_nonneg (by omega))
  have hfle : ((⌊q⌋ : ℤ) : ℚ) ≤ q := Int.floor_le q
  have hflgt : q < ((⌊q⌋ : ℤ) : ℚ) + 1 := Int.lt_floor_add_one q
  have hcege : q ≤ ((⌈q⌉ : ℤ) : ℚ) := Int.le_ceil q
  have hcelt : ((⌈q⌉ : ℤ) : ℚ) < q + 1 := Int.ceil_lt_add_one q
  by_cases hk : key (⌊q⌋.toNat) ≤ key (⌈q⌉.toNat)
  · simp only [hk, if_true, reduceIte]
    by_cases hfl1 : 1 ≤ ⌊q⌋
    · have hmax : max (⌊q⌋.toNat) 1 = ⌊q⌋.toNat := Nat.max_eq_left (by omega)
      rw [hmax, hflc, abs_sub_lt_iff]
      constructor <;> linarith
    · have hfl00 : ⌊q⌋ = 0 := by omega
      have hmax : max (⌊q⌋.toNat) 1 = 1 := by rw [hfl00]; rfl
      rw [hmax]
      have hqlt1 : q < 1 := by rw [hfl00] at hflgt; simpa using hflgt
      rw [abs_sub_lt_iff]
      constructor <;> push_cast <;> linarith
  · simp only [hk, if_false, reduceIte]
    have hmax : max (⌈q⌉.toNat) 1 = ⌈q⌉.toNat := Nat.max_eq_left (by omega)
    rw [hmax, hcec, abs_sub_lt_iff]
    constructor <;> linarith

theorem round_aspect_le_and_near (q : ℚ) (hq : 0 < q) (hle : q ≤ 800)
    (key : ℕ → ℚ) :
    round_aspect q key ≤ 800 ∧ |((round_aspect q key : ℕ) : ℚ) - q| < 1 := by
  have hnear := round_aspect_near q hq key
  refine ⟨?_, hnear⟩
  have h1 := (abs_sub_lt_iff.mp hnear).1
  have hlt : ((round_aspect q key : ℕ) : ℚ) < 801 := by linarith
  have : (round_aspect q key : ℕ) < 801 := by exact_mod_cast hlt
  omega

theorem pil_thumbnail_size_fit (w h x y : ℕ) (hfit : w ≤ x ∧ h ≤ y) :
    pil_thumbnail_size w h x y = (w, h) := by
  unfold pil_thumbnail_size
  rw [if_pos hfit]

theorem pil_thumbnail_size_tall (w h x y : ℕ) (hfit : ¬(w ≤ x ∧ h ≤ y))
    (hc : (w : ℚ) / (h : ℚ) ≤ (x : ℚ) / (y : ℚ)) :
    pil_thumbnail_size w h x y =
      (round_aspect ((y : ℚ) * ((w : ℚ) / (h : ℚ)))
         (fun n => |(w : ℚ) / (h : ℚ) - (n : ℚ) / (y : ℚ)|), y) := by
  unfold pil_thumbnail_size
  rw [if_neg hfit, if_pos hc]

theorem pil_thumbnail_size_wide (w h x y : ℕ) (hfit : ¬(w ≤ x ∧ h ≤ y))
    (hc : ¬((w : ℚ) / (h : ℚ) ≤ (x : ℚ) / (y : ℚ))) :
    pil_thumbnail_size w h x y =
      (x, round_aspect ((x : ℚ) / ((w : ℚ) / (h : ℚ)))
            (fun n => if n = 0 then 0 else |(w : ℚ) / (h : ℚ) - (x : ℚ) / (n : ℚ)|)) := by
  unfold pil_thumbnail_size
  rw [if_neg hfit, if_neg hc]

theorem pil_thumbnail_size_bounds (w h : ℕ) (hw : 1 ≤ w) (hh : 1 ≤ h) :
    (pil_thumbnail_size w h 800 800).1 ≤ 800 ∧
    (pil_thumbnail_size w h 800 800).2 ≤ 800 ∧
    |((pil_thumbnail_size w h 800 800).1 : ℤ) * h -
      ((pil_thumbnail_size w h 800 800).2 : ℤ) * w| < (max w h : ℤ) := by
  have hwq : (0 : ℚ) < w := by exact_mod_cast hw
  have hhq : (0 : ℚ) < h := by exact_mod_cast hh
  have hmax1 : (1 : ℤ) ≤ (max w h : ℤ) := by
    have := le_max_left w h
    omega
  by_cases hfit : w ≤ 800 ∧ h ≤ 800
  · rw [pil_thumbnail_size_fit w h 800 800 hfit]
    refine ⟨hfit.1, hfit.2, ?_⟩
    have hz : ((w : ℤ)) * h - (h : ℤ) * w = 0 := by ring
    simp only [hz, abs_zero]
    omega
  · by_cases hc : (w : ℚ) / (h : ℚ) ≤ ((800 : ℕ) : ℚ) / ((800 : ℕ) : ℚ)
    · rw [pil_thumbnail_size_tall w h 800 800 hfit hc]
      have haspect1 : (w : ℚ) / (h : ℚ) ≤ 1 := by
        have : ((800 : ℕ) : ℚ) / ((800 : ℕ) : ℚ) = 1 := by norm_num
        rw [this] at hc
        exact hc
      have hqpos : (0 : ℚ) < ((800 : ℕ) : ℚ) * ((w : ℚ) / (h : ℚ)) := by positivity
      have hle : ((800 : ℕ) : ℚ) * ((w : ℚ) / (h : ℚ)) ≤ 800 := by
        push_cast
        nlinarith
      obtain ⟨hr800, hnear⟩ := round_aspect_le_and_near _ hqpos hle
        (fun n => |(w : ℚ) / (h : ℚ) - (n : ℚ) / ((800 : ℕ) : ℚ)|)
      refine ⟨hr800, le_refl 800, ?_⟩
      set r := round_aspect (((800 : ℕ) : ℚ) * ((w : ℚ) / (h : ℚ)))
        (fun n => |(w : ℚ) / (h : ℚ) - (n : ℚ) / ((800 : ℕ) : ℚ)|) with hrdef
      have hid : ((800 : ℕ) : ℚ) * ((w : ℚ) / (h : ℚ)) * h = 800 * w := by
        field_simp
      have habs : |(r : ℚ) * h - 800 * w| < (max w h : ℚ) := by
        have h1 : (r : ℚ) * h - 800 * w =
            ((r : ℚ) - ((800 : ℕ) : ℚ) * ((w : ℚ) / (h : ℚ))) * h := by
          rw [sub_mul, hid]
        rw [h1, abs_mul, abs_of_pos hhq]
        have hmaxh : (h : ℚ) ≤ (max w h : ℚ) := by
          have := le_max_right w h
          exact_mod_cast this
        calc |(r : ℚ) - ((800 : ℕ) : ℚ) * ((w : ℚ) / (h : ℚ))| * h
            < 1 * h := mul_lt_mul_of_pos_right hnear hhq
          _ = h := one_mul _
          _ ≤ (max w h : ℚ) := hmaxh
      have hgoal : |((r : ℤ) : ℚ) * h - ((800 : ℤ) : ℚ) * w| < ((max w h : ℤ) : ℚ) := by
        push_cast at habs ⊢
        exact habs
      dsimp only
      exact_mod_cast hgoal
    · rw [pil_thumbnail_size_wide w h 800 800 hfit hc]
      have haspect1 : 1 < (w : ℚ) / (h : ℚ) := by
        have he : ((800 : ℕ) : ℚ) / ((800 : ℕ) : ℚ) = 1 := by norm_num
        rw [he] at hc
        push_neg at hc
        exact hc
      have hqpos : (0 : ℚ) < ((800 : ℕ) : ℚ) / ((w : ℚ) / (h : ℚ)) := by positivity
      have hle : ((800 : ℕ) : ℚ) / ((w : ℚ) / (h : ℚ)) ≤ 800 := by
        rw [div_le_iff (by positivity)]
        push_cast
        nlinarith
      obtain ⟨hr800, hnear⟩ := round_aspect_le_and_near _ hqpos hle
        (fun n => if n = 0 then 0 else |(w : ℚ) / (h : ℚ) - ((800 : ℕ) : ℚ) / (n : ℚ)|)
      refine ⟨le_refl 800, hr800, ?_⟩
      set r := round_aspect (((800 : ℕ) : ℚ) / ((w : ℚ) / (h : ℚ)))
        (fun n => if n = 0 then 0 else |(w : ℚ) / (h : ℚ) - ((800 : ℕ) : ℚ) / (n : ℚ)|) with hrdef
      have hid : ((800 : ℕ) : ℚ) / ((w : ℚ) / (h : ℚ)) * w = 800 * h := by
        rw [div_div_eq_mul_div, div_mul_cancel₀ _ (ne_of_gt hwq)]
        push_cast
        ring
      have habs : |(800 : ℚ) * h - (r : ℚ) * w| < (max w h : ℚ) := by
        have h1 : (800 : ℚ) * h - (r : ℚ) * w =
            (((800 : ℕ) : ℚ) / ((w : ℚ) / (h : ℚ)) - (r : ℚ)) * w := by
          rw [sub_mul, hid]
        rw [h1, abs_mul, abs_of_pos hwq, abs_sub_comm]
        have hmaxw : (w : ℚ) ≤ (max w h : ℚ) := by
          have := le_max_left w h
          exact_mod_cast this
        calc |(r : ℚ) - ((800 : ℕ) : ℚ) / ((w : ℚ) / (h : ℚ))| * w
            < 1 * w := mul_lt_mul_of_pos_right hnear hwq
          _ = w := one_mul _
          _ ≤ (max w h : ℚ) := hmaxw
      have hgoal : |((800 : ℤ) : ℚ) * h - ((r : ℤ) : ℚ) * w| < ((max w h : ℤ) : ℚ) := by
        push_cast at habs ⊢
        exact habs
      dsimp only
      exact_mod_cast hgoal

theorem pil_thumbnail_parts (i : PImage) :
    (pil_thumbnail i).mode = i.mode ∧
    (pil_thumbnail i).width = (pil_thumbnail_size i.width i.height 800 800).1 ∧
    (pil_thumbnail i).height = (pil_thumbnail_size i.width i.height 800 800).2 := by
  unfold pil_thumbnail
  by_cases hsz : pil_thumbnail_size i.width i.height 800 800 = (i.width, i.height)
  · rw [if_pos hsz, hsz]
    exact ⟨rfl, rfl, rfl⟩
  · rw [if_neg hsz]
    exact ⟨rfl, rfl, rfl⟩

theorem compress_image_parts (img : PImage) :
    (compress_image img).mode = "RGB" ∧
    (compress_image img).width = (pil_thumbnail_size img.width img.height 800 800).1 ∧
    (compress_image img).height = (pil_thumbnail_size img.width img.height 800 800).2 := by
  unfold compress_image
  by_cases hm : img.mode ≠ "RGB"
  · rw [if_pos hm]
    have := pil_thumbnail_parts (pil_convert_rgb img)
    simpa [pil_convert_rgb] using this
  · rw [if_neg hm]
    push_neg at hm
    have := pil_thumbnail_parts img
    rw [hm] at this
    exact this

/-! ## Lemmas: shopping-list shape and the report story -/

/-- A material entry in the shape the specification demands: an object
carrying a string item name and a string search query. -/
def wellFormedEntry : Json → Bool
  | .obj fs =>
    (match jsonGet fs "item" with
     | some (.str _) => true
     | _ => false) &&
    (match jsonGet fs "query" with
     | some (.str _) => true
     | _ => false)
  | _ => false

/-- A material list in the shape the specification demands: a sequence
of well-formed entries. -/
def wellFormedShoppingList : Json → Bool
  | .arr xs => xs.all wellFormedEntry
  | _ => false

theorem shoppingEntry_ok_of_wf (j : Json) (h : wellFormedEntry j = true) :
    ∃ p, shoppingEntry j = Except.ok p := by
  cases j with
  | obj fs =>
    simp only [wellFormedEntry, Bool.and_eq_true] at h
    obtain ⟨hi, hq⟩ := h
    split at hq
    · rename_i q hq'
      split at hi
      · rename_i v hi'
        exact ⟨(jsonToStr (Json.str v), q), by simp [shoppingEntry, hq', hi']⟩
      · exact absurd hi (by simp)
    · exact absurd hq (by simp)
  | null => exact absurd h (by simp [wellFormedEntry])
  | bool b => exact absurd h (by simp [wellFormedEntry])
  | num n => exact absurd h (by simp [wellFormedEntry])
  | str s => exact absurd h (by simp [wellFormedEntry])
  | arr xs => exact absurd h (by simp [wellFormedEntry])

theorem shoppingItemsList_ok_of_wf :
    ∀ xs : List Json, xs.all wellFormedEntry = true →
      ∃ l, shoppingItemsList xs = Except.ok l
  | [], _ => ⟨[], rfl⟩
  | j :: rest, h => by
    simp only [List.all_cons, Bool.and_eq_true] at h
    obtain ⟨p, hp⟩ := shoppingEntry_ok_of_wf j h.1
    obtain ⟨l, hl⟩ := shoppingItemsList_ok_of_wf rest h.2
    exact ⟨p :: l, by simp [shoppingItemsList, hp, hl]⟩

theorem shoppingSection_flows_no_images (items : List (String × String)) :
    storyImages (items.map (fun it => Flowable.para (material_link_html it.1 it.2) "BodyText")) = [] := by
  induction items with
  | nil => rfl
  | cons a rest ih =>
    simp only [List.map_cons, storyImages, List.map_cons, List.flatten] at ih ⊢
    simpa [flowImages] using ih

theorem shoppingSection_ok_of_wf (sl : Json) (h : wellFormedShoppingList sl = true) :
    ∃ fl, shoppingSection sl = Except.ok fl ∧ storyImages fl = [] := by
  cases sl with
  | arr xs =>
    by_cases hxs : xs.isEmpty
    · refine ⟨[], ?_, rfl⟩
      unfold shoppingSection
      simp [jsonTruthy, hxs]
    · have hwf : xs.all wellFormedEntry = true := by simpa [wellFormedShoppingList] using h
      obtain ⟨l, hl⟩ := shoppingItemsList_ok_of_wf xs hwf
      have hxs' : xs.isEmpty = false := by simpa using hxs
      have hsec : shoppingSection (Json.arr xs) =
          Except.ok (Flowable.para "Material Palette & Specifications" "SectionHeader" ::
            l.map (fun it => Flowable.para (material_link_html it.1 it.2) "BodyText")) := by
        unfold shoppingSection
        simp only [jsonTruthy, hxs', Bool.not_false, if_true, reduceIte, shoppingItems, hl]
      refine ⟨_, hsec, ?_⟩
      have := shoppingSection_flows_no_images l
      simpa [storyImages, flowImages] using this
  | null => exact absurd h (by simp [wellFormedShoppingList])
  | bool b => exact absurd h (by simp [wellFormedShoppingList])
  | num n => exact absurd h (by simp [wellFormedShoppingList])
  | str s => exact absurd h (by simp [wellFormedShoppingList])
  | obj fs => exact absurd h (by simp [wellFormedShoppingList])

theorem report_story_ok (b a : PImage) (s r : String) (sl : Json)
    (h : wellFormedShoppingList sl = true) :
    ∃ st, report_story b a (Json.str s) (Json.str r) sl = Except.ok st ∧
      storyImages st = [jpeg_save b, jpeg_save a] ∧
      s ∈ storyTexts st ∧ r ∈ storyTexts st := by
  obtain ⟨fl, hfl, hflimg⟩ := shoppingSection_ok_of_wf sl h
  have hstory : report_story b a (Json.str s) (Json.str r) sl = Except.ok
      ([Flowable.para "Renovation Proposal" "BrandTitle",
        Flowable.spacer 1 10, Flowable.para s "BodyText", Flowable.spacer 1 20,
        Flowable.table [[prep b, prep a],
          [Cell.cpara "<b>Original Site</b>" "BodyText",
           Cell.cpara "<b>Proposed Design</b>" "BodyText"]] [270, 270],
        Flowable.spacer 1 25, Flowable.para "Design Concept" "SectionHeader",
        Flowable.para r "BodyText", Flowable.spacer 1 15] ++ fl ++
       [Flowable.spacer 1 20, Flowable.para "Next Steps" "SectionHeader",
        Flowable.para next_steps_html "BodyText"]) := by
    simp only [report_story, asParagraphText, hfl]
  refine ⟨_, hstory, ?_, ?_, ?_⟩
  · simp only [storyImages, List.map_append, List.flatten_append]
    rw [show storyImages fl = (fl.map flowImages).flatten from rfl] at hflimg
    rw [hflimg]
    rfl
  · simp [storyTexts, flowTexts]
  · simp [storyTexts, flowTexts]

/-! ## Handler lemmas -/

theorem fallback_summary_ne (r c : String) :
    "Renovation of " ++ r ++ " updating " ++ c ++ "." ≠ "" := by
  intro h
  have h2 := congrArg String.length h
  rw [String.length_append, String.length_append, String.length_append,
      String.length_append] at h2
  have e1 : String.length "Renovation of " = 14 := by decide
  have e2 : String.length " updating " = 10 := by decide
  have e3 : String.length "." = 1 := by decide
  have e4 : String.length "" = 0 := by decide
  rw [e1, e2, e3, e4] at h2
  omega

theorem create_pdf_report_ok_of_wf (b a : PImage) (s r : String) (sl : Json)
    (h : wellFormedShoppingList sl = true) :
    ∃ p, create_pdf_report b a (Json.str s) (Json.str r) sl = Except.ok p := by
  obtain ⟨st, hst, _⟩ := report_story_ok b a s r sl h
  refine ⟨base64Encode (docBuild st), ?_⟩
  simp [create_pdf_report, hst]

theorem generate_step_fail_state (s : AppState) (r c d : String) (o : GenCalls)
    (i : PImage) (h : s.input_img = some i)
    (hfail : (generate_renovation i (generate_prompt r c d) o.image_call).1 = none) :
    (generate_step s r c d o).state = s := by
  simp only [generate_step, h]
  rcases hg : generate_renovation i (generate_prompt r c d) o.image_call with ⟨f, sn⟩
  rw [hg] at hfail
  simp only at hfail
  subst hfail
  rfl

theorem refine_step_fail_state (s : AppState) (chat : String)
    (resp : Except String ImgResponse) (a : PImage) (h : s.result_img = some a)
    (hfail : (generate_renovation a chat resp).1 = none) :
    (refine_step s chat resp).state = s := by
  simp only [refine_step, h]
  rcases hg : generate_renovation a chat resp with ⟨f, sn⟩
  rw [hg] at hfail
  simp only at hfail
  subst hfail
  rfl

theorem refine_step_sent (s : AppState) (chat : String)
    (resp : Except String ImgResponse) (a : PImage) (h : s.result_img = some a) :
    (refine_step s chat resp).sentImage = some a := by
  simp only [refine_step, h]
  rcases hg : generate_renovation a chat resp with ⟨f, sn⟩
  cases f with
  | none => rfl
  | some new_res =>
    cases hin : s.input_img with
    | none => rfl
    | some before =>
      cases hpdf : create_pdf_report before new_res s.summary s.rationale s.shop_list with
      | ok p => simp only [hin, hpdf]
      | error e => simp only [hin, hpdf]

theorem refine_step_result (s : AppState) (chat : String)
    (resp : Except String ImgResponse) (a a1 : PImage) (h : s.result_img = some a)
    (h1 : (generate_renovation a chat resp).1 = some a1) :
    (refine_step s chat resp).state.result_img = some a1 := by
  simp only [refine_step, h]
  rcases hg : generate_renovation a chat resp with ⟨f, sn⟩
  rw [hg] at h1
  simp only at h1
  subst h1
  cases hin : s.input_img with
  | none => rfl
  | some before =>
    cases hpdf : create_pdf_report before a1 s.summary s.rationale s.shop_list with
    | ok p => simp only [hin, hpdf]
    | error e => simp only [hin, hpdf]

/-! ## Test fixtures for witnesses and counterexamples -/

/-- A 1×1 RGB image used as the uploaded input in concrete runs. -/
def testInputImg : PImage := ⟨"RGB", 1, 1, [0, 0, 0]⟩

/-- A decodable toy payload and the image it decodes to. -/
def testPayload : List Nat := [0, 1, 1, 5, 5, 5]

/-- The image testPayload decodes to. -/
def testResultImg : PImage := ⟨"RGB", 1, 1, [5, 5, 5]⟩

/-- An image-endpoint response whose single candidate carries one raw
inline payload. -/
def okImageResponse : Except String ImgResponse :=
  Except.ok ⟨[[⟨some (BlobData.raw testPayload)⟩]]⟩

/-- The session state right after a successful upload. -/
def testState : AppState := { initState with input_img := some testInputImg }

/-- Oracle run where the image call succeeds, the design-content call
returns parseable JSON with no summary field, and the shopping call
fails. -/
def testCallsEmptySummary : GenCalls :=
  ⟨okImageResponse, Except.ok (Json.obj []), Except.error ()⟩

/-- Oracle run where the image call succeeds and both text calls
fail. -/
def testCallsDegraded : GenCalls :=
  ⟨okImageResponse, Except.error (), Except.error ()⟩

/-- A session state holding stale generation data (as after a completed
generation). -/
def staleState : AppState :=
  { current_view := "result", input_img := some testInputImg,
    result_img := some testResultImg,
    summary := Json.str "stale summary", rationale := Json.str "stale rationale",
    shop_list := Json.arr [Json.obj [("item", Json.str "Paint"), ("query", Json.str "buy paint")]],
    pdf_b64 := some "stale pdf" }

/-- A parsed shopping list whose single entry lacks the query field. -/
def malformedShopJson : Json := Json.arr [Json.obj [("item", Json.str "Paint")]]

/-! ## Claims -/

/-- C1, counterexample to the claim as stated: with a valid input image
and a run whose image call succeeds but whose design-content call
returns parseable JSON lacking a summary field, generate succeeds (the
result view is reached) while the stored summary is the empty string —
so a success with an empty summary field is possible. -/
theorem claim1_counterexample :
    (generate_step testState "Kitchen" "Flooring" "white oak floors"
        testCallsEmptySummary).outcome = StepOutcome.success ∧
    (generate_step testState "Kitchen" "Flooring" "white oak floors"
        testCallsEmptySummary).state.summary = Json.str "" :=
  ⟨rfl, rfl⟩

/-- C1 (amended): for every session with an input image, generate
either succeeds with a decodable after-image stored, or the image call
yields no image together with an explicit error message (never a null
image with no error); and whenever the design-content call fails, the
stored summary is the non-empty templated fallback.  (A success's
summary may however be empty when the text endpoint returns parseable
JSON whose summary field is missing or empty — see the
counterexample.) -/
theorem claim1_generate_totality (s : AppState) (r c d : String) (o : GenCalls)
    (i : PImage) (h : s.input_img = some i) :
    ((generate_step s r c d o).outcome = StepOutcome.success →
      ∃ img bs, (generate_step s r c d o).state.result_img = some img ∧
        imageOpen bs = Except.ok img) ∧
    ((generate_renovation i (generate_prompt r c d) o.image_call).1 = none →
      ∃ e, (generate_renovation i (generate_prompt r c d) o.image_call).2 = some e) ∧
    (∀ img0, (generate_renovation i (generate_prompt r c d) o.image_call).1 = some img0 →
      o.design_call = Except.error () →
      ∃ t, (generate_step s r c d o).state.summary = Json.str t ∧ t ≠ "") := by
  rcases generate_renovation_shape i (generate_prompt r c d) o.image_call with
    ⟨a, bs, heq, hopen⟩ | ⟨e, heq⟩
  · refine ⟨?_, ?_, ?_⟩
    · intro _
      simp only [generate_step, h, heq]
      cases hpdf : create_pdf_report i a
          (generate_design_content r c d o.design_call).1
          (generate_design_content r c d o.design_call).2
          (generate_shopping_list a d o.shopping_call) with
      | ok p => exact ⟨a, bs, rfl, hopen⟩
      | error e2 => exact ⟨a, bs, rfl, hopen⟩
    · intro hnone
      rw [heq] at hnone
      simp at hnone
    · intro img0 himg0 hdes
      simp only [generate_step, h, heq]
      have hsum : (generate_design_content r c d o.design_call).1 =
          Json.str ("Renovation of " ++ r ++ " updating " ++ c ++ ".") := by
        rw [hdes]
        rfl
      cases hpdf : create_pdf_report i a
          (generate_design_content r c d o.design_call).1
          (generate_design_content r c d o.design_call).2
          (generate_shopping_list a d o.shopping_call) with
      | ok p =>
        exact ⟨_, by simp only [hpdf, hsum], fallback_summary_ne r c⟩
      | error e2 =>
        exact ⟨_, by simp only [hpdf, hsum], fallback_summary_ne r c⟩
  · refine ⟨?_, ?_, ?_⟩
    · intro hsucc
      simp only [generate_step, h, heq] at hsucc
      exact absurd hsucc (by simp)
    · intro _
      rw [heq]
      exact ⟨e, rfl⟩
    · intro img0 himg0 hdes
      rw [heq] at himg0
      simp at himg0

/-- C1 witness: the amended theorem instantiated at the concrete upload
state and a concrete successful run. -/
theorem claim1_witness :
    ((generate_step testState "Kitchen" "Flooring" "oak" testCallsDegraded).outcome =
        StepOutcome.success →
      ∃ img bs, (generate_step testState "Kitchen" "Flooring" "oak"
          testCallsDegraded).state.result_img = some img ∧
        imageOpen bs = Except.ok img) ∧
    ((generate_renovation testInputImg (generate_prompt "Kitchen" "Flooring" "oak")
        testCallsDegraded.image_call).1 = none →
      ∃ e, (generate_renovation testInputImg (generate_prompt "Kitchen" "Flooring" "oak")
        testCallsDegraded.image_call).2 = some e) ∧
    (∀ img0, (generate_renovation testInputImg (generate_prompt "Kitchen" "Flooring" "oak")
        testCallsDegraded.image_call).1 = some img0 →
      testCallsDegraded.design_call = Except.error () →
      ∃ t, (generate_step testState "Kitchen" "Flooring" "oak"
          testCallsDegraded).state.summary = Json.str t ∧ t ≠ "") :=
  claim1_generate_totality testState "Kitchen" "Flooring" "oak" testCallsDegraded
    testInputImg rfl

/-- C2: refining twice in sequence sends the second external call the
after-image produced by the first refinement (the session's replaced
result image), not the original upload. -/
theorem claim2_refine_stacking (s : AppState) (c1 c2 : String)
    (o1 o2 : Except String ImgResponse) (a0 a1 : PImage)
    (h0 : s.result_img = some a0)
    (h1 : (generate_renovation a0 c1 o1).1 = some a1) :
    (refine_step (refine_step s c1 o1).state c2 o2).sentImage = some a1 :=
  refine_step_sent _ c2 o2 a1 (refine_step_result s c1 o1 a0 a1 h0 h1)

/-- C2 witness: a concrete double refinement from a generated state. -/
theorem claim2_witness :
    (refine_step (refine_step staleState "add a rug" okImageResponse).state
        "warmer light" (Except.error "quota")).sentImage = some testResultImg :=
  claim2_refine_stacking staleState "add a rug" "warmer light"
    okImageResponse (Except.error "quota") testResultImg testResultImg rfl rfl

/-- C3: a generate or refine whose image call fails (endpoint error or
no image returned, i.e. generate_renovation yields no image) leaves the
session's after-image, report and current view exactly as they were. -/
theorem claim3_failed_call_preserves_state :
    (∀ (s : AppState) (r c d : String) (o : GenCalls) (i : PImage),
      s.input_img = some i →
      (generate_renovation i (generate_prompt r c d) o.image_call).1 = none →
      (generate_step s r c d o).state.result_img = s.result_img ∧
      (generate_step s r c d o).state.pdf_b64 = s.pdf_b64 ∧
      (generate_step s r c d o).state.current_view = s.current_view) ∧
    (∀ (s : AppState) (chat : String) (resp : Except String ImgResponse) (a : PImage),
      s.result_img = some a →
      (generate_renovation a chat resp).1 = none →
      (refine_step s chat resp).state.result_img = s.result_img ∧
      (refine_step s chat resp).state.pdf_b64 = s.pdf_b64 ∧
      (refine_step s chat resp).state.current_view = s.current_view) := by
  constructor
  · intro s r c d o i h hfail
    rw [generate_step_fail_state s r c d o i h hfail]
    exact ⟨rfl, rfl, rfl⟩
  · intro s chat resp a h hfail
    rw [refine_step_fail_state s chat resp a h hfail]
    exact ⟨rfl, rfl, rfl⟩

/-- C3 witness: concrete failing generate (endpoint raised) and refine
(no inline image part) runs, both leaving the displayed fields
untouched. -/
theorem claim3_witness :
    ((generate_step testState "Kitchen" "Paint" "blue walls"
        ⟨Except.error "429 quota exceeded", Except.error (), Except.error ()⟩).state.result_img =
        testState.result_img ∧
      (generate_step testState "Kitchen" "Paint" "blue walls"
        ⟨Except.error "429 quota exceeded", Except.error (), Except.error ()⟩).state.pdf_b64 =
        testState.pdf_b64 ∧
      (generate_step testState "Kitchen" "Paint" "blue walls"
        ⟨Except.error "429 quota exceeded", Except.error (), Except.error ()⟩).state.current_view =
        testState.current_view) ∧
    ((refine_step staleState "more plants"
        (Except.ok ⟨[[⟨none⟩]]⟩)).state.result_img = staleState.result_img ∧
      (refine_step staleState "more plants"
        (Except.ok ⟨[[⟨none⟩]]⟩)).state.pdf_b64 = staleState.pdf_b64 ∧
      (refine_step staleState "more plants"
        (Except.ok ⟨[[⟨none⟩]]⟩)).state.current_view = staleState.current_view) :=
  ⟨claim3_failed_call_preserves_state.1 testState "Kitchen" "Paint" "blue walls"
      ⟨Except.error "429 quota exceeded", Except.error (), Except.error ()⟩
      testInputImg rfl rfl,
   claim3_failed_call_preserves_state.2 staleState "more plants"
      (Except.ok ⟨[[⟨none⟩]]⟩) testResultImg rfl rfl⟩

/-- C4: when both secondary extraction calls fail while the image call
succeeded, generate still succeeds: the after-image is stored, the
summary and rationale degrade to the templated fallbacks, the material
list degrades to the empty list, and a report is still produced. -/
theorem claim4_extraction_degrades (s : AppState) (r c d : String) (o : GenCalls)
    (i img : PImage)
    (h : s.input_img = some i)
    (himg : (generate_renovation i (generate_prompt r c d) o.image_call).1 = some img)
    (hdes : o.design_call = Except.error ())
    (hshop : o.shopping_call = Except.error ()) :
    (generate_step s r c d o).outcome = StepOutcome.success ∧
    (generate_step s r c d o).state.result_img = some img ∧
    (generate_step s r c d o).state.summary =
      Json.str ("Renovation of " ++ r ++ " updating " ++ c ++ ".") ∧
    (generate_step s r c d o).state.rationale =
      Json.str "This design modernizes the space while respecting original proportions." ∧
    (generate_step s r c d o).state.shop_list = Json.arr [] ∧
    ∃ pdf, (generate_step s r c d o).state.pdf_b64 = some pdf := by
  rcases hg : generate_renovation i (generate_prompt r c d) o.image_call with ⟨f, sn⟩
  rw [hg] at himg
  simp only at himg
  subst himg
  simp only [generate_step, h, hg]
  rw [hdes, hshop]
  obtain ⟨p, hp⟩ := create_pdf_report_ok_of_wf i img
    ("Renovation of " ++ r ++ " updating " ++ c ++ ".")
    "This design modernizes the space while respecting original proportions."
    (Json.arr []) rfl
  have hdesign : generate_design_content r c d (Except.error ()) =
      (Json.str ("Renovation of " ++ r ++ " updating " ++ c ++ "."),
       Json.str "This design modernizes the space while respecting original proportions.") := rfl
  have hshop2 : generate_shopping_list img d (Except.error ()) = Json.arr [] := rfl
  rw [hdesign, hshop2]
  rw [hp]
  exact ⟨rfl, rfl, rfl, rfl, rfl, p, rfl⟩

/-- C4 witness: the theorem instantiated at a concrete run whose text
calls fail while the image call succeeds. -/
theorem claim4_witness :
    (generate_step testState "Bedroom" "Lighting" "warm sconces"
        testCallsDegraded).outcome = StepOutcome.success ∧
    (generate_step testState "Bedroom" "Lighting" "warm sconces"
        testCallsDegraded).state.result_img = some testResultImg ∧
    (generate_step testState "Bedroom" "Lighting" "warm sconces"
        testCallsDegraded).state.summary =
      Json.str ("Renovation of " ++ "Bedroom" ++ " updating " ++ "Lighting" ++ ".") ∧
    (generate_step testState "Bedroom" "Lighting" "warm sconces"
        testCallsDegraded).state.rationale =
      Json.str "This design modernizes the space while respecting original proportions." ∧
    (generate_step testState "Bedroom" "Lighting" "warm sconces"
        testCallsDegraded).state.shop_list = Json.arr [] ∧
    ∃ pdf, (generate_step testState "Bedroom" "Lighting" "warm sconces"
        testCallsDegraded).state.pdf_b64 = some pdf :=
  claim4_extraction_degrades testState "Bedroom" "Lighting" "warm sconces"
    testCallsDegraded testInputImg testResultImg rfl rfl rfl rfl

/-- C5, counterexample to the claim as stated: reset_app does not
return every field to its initial value — from a state holding a stale
summary, the state after reset differs from the initial state (the
summary, rationale and material list survive). -/
theorem claim5_counterexample : reset_app staleState ≠ initState := by
  intro h
  have h2 := congrArg AppState.summary h
  simp [reset_app, staleState, initState] at h2

/-- C5 (amended): reset returns the view to the input view and clears
the input image, the after-image and the report, but the summary,
rationale and material list keep their previous values rather than
being reset. -/
theorem claim5_reset_partial (s : AppState) :
    (reset_app s).current_view = "input" ∧ (reset_app s).input_img = none ∧
    (reset_app s).result_img = none ∧ (reset_app s).pdf_b64 = none ∧
    (reset_app s).summary = s.summary ∧ (reset_app s).rationale = s.rationale ∧
    (reset_app s).shop_list = s.shop_list :=
  ⟨rfl, rfl, rfl, rfl, rfl, rfl, rfl⟩

/-- C6: the inline-payload decoding policy — a raw binary payload is
used as image bytes unchanged, and a text-encoded payload carrying the
base64 encoding of those bytes decodes back to exactly those bytes
before use. -/
theorem claim6_decoding_policy (bs : List Nat) (h : ∀ x ∈ bs, x < 256) :
    decodeInlineData (BlobData.raw bs) = Except.ok bs ∧
    decodeInlineData (BlobData.txt (base64Encode bs)) = Except.ok bs :=
  ⟨rfl, base64_encode_decode bs h⟩

/-- C6 witness: the decoding policy at a concrete byte payload. -/
theorem claim6_witness :
    decodeInlineData (BlobData.raw testPayload) = Except.ok testPayload ∧
    decodeInlineData (BlobData.txt (base64Encode testPayload)) = Except.ok testPayload :=
  claim6_decoding_policy testPayload (by decide)

/-- C7, counterexample to the claim as stated: when the extraction
call's reply parses to a list whose entry lacks the query field, the
resulting material list is neither a sequence of well-formed entries
nor empty — the malformed entry is passed through unvalidated. -/
theorem claim7_counterexample :
    wellFormedShoppingList (generate_shopping_list testResultImg "add paint"
      (Except.ok malformedShopJson)) = false ∧
    generate_shopping_list testResultImg "add paint"
      (Except.ok malformedShopJson) ≠ Json.arr [] := by
  constructor
  · rfl
  · intro h
    simp [generate_shopping_list, malformedShopJson] at h

/-- C7 (amended): a failing or unparseable extraction call yields the
empty list, but a successful parse is forwarded unvalidated, so a
malformed entry can reach the consumers — where the report builder then
raises on it. -/
theorem claim7_unvalidated_passthrough (img : PImage) (req : String) (j : Json) :
    generate_shopping_list img req (Except.error ()) = Json.arr [] ∧
    generate_shopping_list img req (Except.ok j) = j ∧
    ∃ e, create_pdf_report testResultImg testResultImg (Json.str "s") (Json.str "r")
      malformedShopJson = Except.error e :=
  ⟨rfl, rfl, "KeyError: query", rfl⟩

/-- C8: the report builder is a pure function of its snapshot — two
invocations on identical inputs are equal, and for any well-formed
material list the built story embeds exactly the JPEG renderings of the
before and after images (pixel payloads carried unchanged) and contains
the given summary and rationale texts.  (Purity and non-mutation hold
by construction: the embedding of create_pdf_report performs no call to
the endpoint oracles and its inputs are immutable values.) -/
theorem claim8_report_builder_pure (b a : PImage) (s r : String) (sl : Json)
    (h : wellFormedShoppingList sl = true) :
    create_pdf_report b a (Json.str s) (Json.str r) sl =
      create_pdf_report b a (Json.str s) (Json.str r) sl ∧
    ∃ st, report_story b a (Json.str s) (Json.str r) sl = Except.ok st ∧
      storyImages st = [jpeg_save b, jpeg_save a] ∧
      s ∈ storyTexts st ∧ r ∈ storyTexts st :=
  ⟨rfl, report_story_ok b a s r sl h⟩

/-- C8 witness: the report builder at a concrete snapshot with one
well-formed material entry. -/
theorem claim8_witness :
    create_pdf_report testInputImg testResultImg (Json.str "summary text")
        (Json.str "rationale text")
        (Json.arr [Json.obj [("item", Json.str "Oak Flooring"),
                             ("query", Json.str "buy oak flooring")]]) =
      create_pdf_report testInputImg testResultImg (Json.str "summary text")
        (Json.str "rationale text")
        (Json.arr [Json.obj [("item", Json.str "Oak Flooring"),
                             ("query", Json.str "buy oak flooring")]]) ∧
    ∃ st, report_story testInputImg testResultImg (Json.str "summary text")
        (Json.str "rationale text")
        (Json.arr [Json.obj [("item", Json.str "Oak Flooring"),
                             ("query", Json.str "buy oak flooring")]]) = Except.ok st ∧
      storyImages st = [jpeg_save testInputImg, jpeg_save testResultImg] ∧
      "summary text" ∈ storyTexts st ∧ "rationale text" ∈ storyTexts st :=
  claim8_report_builder_pure testInputImg testResultImg "summary text" "rationale text"
    (Json.arr [Json.obj [("item", Json.str "Oak Flooring"),
                         ("query", Json.str "buy oak flooring")]]) rfl

/-- C9: input normalization converts every decodable image to the RGB
mode and caps both dimensions at 800, preserving the aspect ratio up to
the unavoidable integer rounding of the scaled dimension: the
cross-products of the output and input dimensions differ by less than
one rounding unit (max of the input dimensions), and are equal exactly
when no rounding occurs. -/
theorem claim9_input_normalization (img : PImage)
    (hw : 1 ≤ img.width) (hh : 1 ≤ img.height) :
    (compress_image img).mode = "RGB" ∧
    (compress_image img).width ≤ 800 ∧ (compress_image img).height ≤ 800 ∧
    |((compress_image img).width : ℤ) * img.height -
      ((compress_image img).height : ℤ) * img.width| <
      (max img.width img.height : ℤ) := by
  obtain ⟨hm, hwid, hhei⟩ := compress_image_parts img
  obtain ⟨h1, h2, h3⟩ := pil_thumbnail_size_bounds img.width img.height hw hh
  rw [hwid, hhei]
  exact ⟨hm, h1, h2, h3⟩

/-- C9 witness: normalization of a concrete 1000×999 greyscale image
(downscaled to 800×799 RGB). -/
theorem claim9_witness :
    (compress_image ⟨"L", 1000, 999, []⟩).mode = "RGB" ∧
    (compress_image ⟨"L", 1000, 999, []⟩).width ≤ 800 ∧
    (compress_image ⟨"L", 1000, 999, []⟩).height ≤ 800 ∧
    |((compress_image ⟨"L", 1000, 999, []⟩).width : ℤ) * (PImage.mk "L" 1000 999 []).height -
      ((compress_image ⟨"L", 1000, 999, []⟩).height : ℤ) * (PImage.mk "L" 1000 999 []).width| <
      (max (PImage.mk "L" 1000 999 []).width (PImage.mk "L" 1000 999 []).height : ℤ) :=
  claim9_input_normalization ⟨"L", 1000, 999, []⟩ (by decide) (by decide)

/-- C10: compress_image never upscales — an image already within the
800×800 cap keeps exactly its pixel dimensions. -/
theorem claim10_no_upscale (img : PImage)
    (hw : img.width ≤ 800) (hh : img.height ≤ 800) :
    (compress_image img).width = img.width ∧
    (compress_image img).height = img.height := by
  obtain ⟨_, hwid, hhei⟩ := compress_image_parts img
  rw [hwid, hhei, pil_thumbnail_size_fit img.width img.height 800 800 ⟨hw, hh⟩]
  exact ⟨rfl, rfl⟩

/-- C10 witness: a concrete 640×480 image keeps its dimensions. -/
theorem claim10_witness :
    (compress_image ⟨"RGB", 640, 480, []⟩).width = (PImage.mk "RGB" 640 480 []).width ∧
    (compress_image ⟨"RGB", 640, 480, []⟩).height = (PImage.mk "RGB" 640 480 []).height :=
  claim10_no_upscale ⟨"RGB", 640, 480, []⟩ (by decide) (by decide)

end RoomVisualizer
